import Mathlib

/-!
Shallow embedding of the CausaDB node client (`src/causadb.ts`).

The client is a thin proxy over HTTP: every method issues at most one or two
requests through `axios` and wraps the returned names into local handle
objects.  The embedding makes the external service explicit: each operation
takes, for every HTTP request it can issue, the outcome the transport would
deliver for that request (`ReqOutcome`), and returns the operation's result
(`Except` for a rejected promise), the post-state of the client object, and
the list of requests it issued.

The classes `Data` (src/data.ts) and `Model` (src/model.ts) are imported by
`causadb.ts` but their sources are not part of the sources here; their small
surface used by `causadb.ts` is modelled from the spec, and each such
definition is marked `Modelled from the spec:` in its doc comment.
-/

/-- A JavaScript `Error` value, identified by its message string
(the only part of it `causadb.ts` ever sets or that callers can match on). -/
inductive JsError where
  | mk (msg : String) : JsError
deriving DecidableEq, Repr

/-- Outcome of one `axios` request, as observed by the awaiting code:
either the promise rejects with an error (network failure, or an HTTP status
rejected by axios' status validation), or it resolves with a status code and
a parsed JSON body of shape `α`. -/
inductive ReqOutcome (α : Type) where
  | throws (e : JsError)
  | returns (status : Nat) (body : α)
deriving DecidableEq, Repr

/-- Whether the request resolved (did not reject). -/
def ReqOutcome.resolved {α : Type} : ReqOutcome α → Bool
  | .throws _ => false
  | .returns _ _ => true

/-- Client state: `causadb.ts` line 12, the single mutable field
`tokenSecret : string | null`, initialized to `null` by the constructor. -/
structure CausaDB where
  tokenSecret : Option String
deriving DecidableEq, Repr

/-- The constructor (`causadb.ts` lines 23-25): `this.tokenSecret = null`. -/
def CausaDB.new : CausaDB := ⟨none⟩

/-- The HTTP requests `causadb.ts` can issue, each carrying the endpoint's
identity, its path parameter when it has one, and the `token` header value
sent with it.  `modelCreate` is the implied create-model request issued by
`Model.create` (spec §6). -/
inductive Request where
  | account (token : String)
  | modelLookup (token : Option String) (name : String)
  | modelsList (token : Option String)
  | dataList (token : Option String)
  | modelCreate (token : Option String) (name : String)
deriving DecidableEq, Repr

/-- One element of the `models` array in the model-listing response body, and
of the `data` array in the data-listing response body: an object with at
least a `name` field (spec §6). -/
structure NameSpec where
  name : String
deriving DecidableEq, Repr

/-- Parsed body of a `GET /models` response: `{ models: [{ name }, ...] }`. -/
structure ModelsBody where
  models : List NameSpec
deriving DecidableEq, Repr

/-- Parsed body of a `GET /data` response: `{ data: [{ name }, ...] }`. -/
structure DataBody where
  data : List NameSpec
deriving DecidableEq, Repr

deriving instance DecidableEq for Except

/-- Result of one client operation: the settled value of the returned promise
(`Except` error for a rejection), the state of the client object after the
call, and the HTTP requests issued during the call, in order. -/
structure OpResult (α : Type) where
  result : Except JsError α
  client : CausaDB
  requests : List Request
deriving DecidableEq, Repr

/-- Modelled from the spec: class `Data` (src/data.ts is not among the
sources).  A handle is a lightweight object identifying a remote resource by
name together with a back-reference to its owning client (spec §3);
its constructor performs no network call (spec §4.1 `addData`). -/
structure Data where
  name : String
  client : CausaDB
deriving DecidableEq, Repr

/-- Modelled from the spec: class `Model` (src/model.ts is not among the
sources).  Same shape as `Data`: a name and a back-reference to the owning
client (spec §3). -/
structure Model where
  name : String
  client : CausaDB
deriving DecidableEq, Repr

/-- Modelled from the spec: `Model.create(name, client)` (src/model.ts is not
among the sources) is an asynchronous factory that performs a remote
create-model call and returns a local handle keyed by `name` (spec §4.1-4.2);
it never mutates the client (spec §5: the token field is written only at
authentication).  `outcome` is the transport's outcome for its create
request: a rejection propagates, a resolved response yields the handle. -/
def Model.create (name : String) (client : CausaDB) (outcome : ReqOutcome Unit) :
    Except JsError Model × List Request :=
  (match outcome with
    | .throws e => .error e
    | .returns _ _ => .ok (Model.mk name client),
   [Request.modelCreate client.tokenSecret name])

/-- `CausaDB.setToken` (`causadb.ts` lines 38-47).  Sends
`GET /account` with header `token: tokenSecret`; there is no try/catch, so a
rejected request propagates.  On a resolved response: if `status === 200`,
assigns `this.tokenSecret = tokenSecret` and returns `true`; otherwise throws
`new Error('Invalid token')`. -/
def CausaDB.setToken (client : CausaDB) (tokenSecret : String)
    (outcome : ReqOutcome Unit) : OpResult Bool :=
  match outcome with
  | .throws e => ⟨.error e, client, [Request.account tokenSecret]⟩
  | .returns status _ =>
      if status = 200 then
        ⟨.ok true, ⟨some tokenSecret⟩, [Request.account tokenSecret]⟩
      else
        ⟨.error (JsError.mk "Invalid token"), client, [Request.account tokenSecret]⟩

/-- `CausaDB.createModel` (`causadb.ts` lines 60-62):
`return await Model.create(modelName, this)` — no try/catch, so a rejection
from `Model.create` propagates as-is. -/
def CausaDB.createModel (client : CausaDB) (modelName : String)
    (createOutcome : ReqOutcome Unit) : OpResult Model :=
  let created := Model.create modelName client createOutcome
  ⟨created.1, client, created.2⟩

/-- `CausaDB.addData` (`causadb.ts` lines 76-78):
`return new Data(dataName, this)` — synchronous, no request, cannot throw. -/
def CausaDB.addData (client : CausaDB) (dataName : String) : OpResult Data :=
  ⟨.ok (Data.mk dataName client), client, []⟩

/-- `CausaDB.getModel` (`causadb.ts` lines 92-100).  Inside a try:
`await axios.get(.../models/{modelName})` with header
`token: this.tokenSecret`, then `return Model.create(modelName, this)`.
The catch rethrows `new Error('CausaDB server request failed')`.  The lookup
is awaited, so its rejection is caught; the `Model.create` promise is
returned *without* `await`, so a rejection of the create call is NOT routed
through this catch and propagates as-is. -/
def CausaDB.getModel (client : CausaDB) (modelName : String)
    (lookupOutcome : ReqOutcome Unit) (createOutcome : ReqOutcome Unit) :
    OpResult Model :=
  match lookupOutcome with
  | .throws _ =>
      ⟨.error (JsError.mk "CausaDB server request failed"), client,
       [Request.modelLookup client.tokenSecret modelName]⟩
  | .returns _ _ =>
      let created := Model.create modelName client createOutcome
      ⟨created.1, client,
       Request.modelLookup client.tokenSecret modelName :: created.2⟩

/-- The `Promise.all(response.data.models.map(modelSpec =>
Model.create(modelSpec.name, this)))` step of `listModels`
(`causadb.ts` line 117): every create request is started (so every request is
issued), the combined promise resolves to the list of handles in the order of
`names`, and rejects if any create rejects. -/
def createAll (names : List String) (client : CausaDB)
    (outcomes : String → ReqOutcome Unit) :
    Except JsError (List Model) × List Request :=
  match names with
  | [] => (.ok [], [])
  | n :: rest =>
      let head := Model.create n client (outcomes n)
      let tail := createAll rest client outcomes
      (match head.1, tail.1 with
        | .ok m, .ok ms => .ok (m :: ms)
        | .error e, _ => .error e
        | .ok _, .error e => .error e,
       head.2 ++ tail.2)

/-- `CausaDB.listModels` (`causadb.ts` lines 113-121).  Inside a try:
`await axios.get(.../models)` with header `token: this.tokenSecret`, then
`return await Promise.all(...)` mapping each returned name through
`Model.create`.  Both awaits are inside the try, so a rejection of either the
listing or any create is caught and rethrown as
`new Error('CausaDB server request failed')`. -/
def CausaDB.listModels (client : CausaDB)
    (listOutcome : ReqOutcome ModelsBody)
    (createOutcomes : String → ReqOutcome Unit) : OpResult (List Model) :=
  match listOutcome with
  | .throws _ =>
      ⟨.error (JsError.mk "CausaDB server request failed"), client,
       [Request.modelsList client.tokenSecret]⟩
  | .returns _ body =>
      let created := createAll (body.models.map NameSpec.name) client createOutcomes
      ⟨match created.1 with
        | .ok ms => .ok ms
        | .error _ => .error (JsError.mk "CausaDB server request failed"),
       client,
       Request.modelsList client.tokenSecret :: created.2⟩

/-- `CausaDB.getData` (`causadb.ts` lines 135-148).  Inside a try:
`await axios.get(.../data)` with header `token: this.tokenSecret`; map the
body's `data` array to its names; if `data_names.includes(dataName)` return
`new Data(dataName, this)`, else
`throw new Error('Data ' + dataName + ' not found')`.  The catch wraps the
WHOLE try body — including that not-found throw — and rethrows
`new Error('CausaDB server request failed')`.  `tryBody` below is the try
block's own outcome; the outer match is the catch. -/
def CausaDB.getData (client : CausaDB) (dataName : String)
    (listOutcome : ReqOutcome DataBody) : OpResult Data :=
  let tryBody : Except JsError Data :=
    match listOutcome with
    | .throws e => .error e
    | .returns _ body =>
        let data_names := body.data.map NameSpec.name
        if dataName ∈ data_names then
          .ok (Data.mk dataName client)
        else
          .error (JsError.mk ("Data " ++ dataName ++ " not found"))
  ⟨match tryBody with
    | .ok d => .ok d
    | .error _ => .error (JsError.mk "CausaDB server request failed"),
   client, [Request.dataList client.tokenSecret]⟩

/-- `CausaDB.listData` (`causadb.ts` lines 161-169).  Inside a try:
`await axios.get(.../data)` with header `token: this.tokenSecret`, then map
the body's `data` array to `new Data(dataSpec.name, this)` handles.  The
catch rethrows `new Error('CausaDB client failed to connect to server')` —
note: a different message from the other methods. -/
def CausaDB.listData (client : CausaDB)
    (listOutcome : ReqOutcome DataBody) : OpResult (List Data) :=
  match listOutcome with
  | .throws _ =>
      ⟨.error (JsError.mk "CausaDB client failed to connect to server"), client,
       [Request.dataList client.tokenSecret]⟩
  | .returns _ body =>
      ⟨.ok (body.data.map (fun ds => Data.mk ds.name client)), client,
       [Request.dataList client.tokenSecret]⟩

/-- The AuthenticationError of the spec's taxonomy (§7): the
`Error('Invalid token')` thrown by `setToken` (`causadb.ts` line 45). -/
def authenticationError : JsError := JsError.mk "Invalid token"

/-- The ServerRequestError of the spec's taxonomy (§7): the
`Error('CausaDB server request failed')` thrown by `getModel`, `listModels`
and `getData` on failure. -/
def serverRequestError : JsError := JsError.mk "CausaDB server request failed"

/-- The error `listData` throws on failure (`causadb.ts` line 167). -/
def clientConnectError : JsError :=
  JsError.mk "CausaDB client failed to connect to server"

/-- The not-found error `getData` constructs for an absent name
(`causadb.ts` line 143). -/
def notFoundError (dataName : String) : JsError :=
  JsError.mk ("Data " ++ dataName ++ " not found")

/-- Helper for `listModels`: when every create request resolves, `createAll`
returns one handle per name, named identically, in order. -/
theorem createAll_ok (client : CausaDB) (outcomes : String → ReqOutcome Unit)
    (names : List String)
    (h : ∀ n ∈ names, (outcomes n).resolved = true) :
    (createAll names client outcomes).1
      = .ok (names.map (fun n => Model.mk n client)) := by
  induction names with
  | nil => rfl
  | cons n rest ih =>
      have hn := h n (List.mem_cons_self n rest)
      have hrest : ∀ x ∈ rest, (outcomes x).resolved = true :=
        fun x hx => h x (List.mem_cons_of_mem n hx)
      cases hout : outcomes n with
      | throws e => simp [ReqOutcome.resolved, hout] at hn
      | returns status body =>
          simp [createAll, Model.create, hout, ih hrest]

/-- C1: at the failing input — the data-listing request resolves with status
200 and body `{data: [{name: "y"}]}`, so the requested name `"x"` is absent
from a successful listing — `getData` rejects with the generic
ServerRequestError message, not with a distinct not-found error: the
`throw new Error('Data x not found')` sits inside the try block and is
swallowed by `getData`'s own catch (`causadb.ts` lines 145-147), which
rethrows `Error('CausaDB server request failed')`. -/
theorem getData_notFound_swallowed :
    (CausaDB.getData ⟨some "t"⟩ "x" (.returns 200 ⟨[⟨"y"⟩]⟩)).result
        = .error serverRequestError
  ∧ serverRequestError ≠ notFoundError "x" :=
  ⟨rfl, by decide⟩

/-- C2 counterexample: a rejected account-verification request (a non-200
outcome) makes `setToken` fail with the transport's own error — here
`Error("Network Error")` — not with the AuthenticationError
`Error('Invalid token')`; there is no try/catch in `setToken`
(`causadb.ts` lines 38-47).  The token field is nevertheless unchanged. -/
theorem setToken_throws_propagates :
    (CausaDB.setToken ⟨none⟩ "s" (.throws (JsError.mk "Network Error"))).result
        = .error (JsError.mk "Network Error")
  ∧ JsError.mk "Network Error" ≠ authenticationError
  ∧ (CausaDB.setToken ⟨none⟩ "s" (.throws (JsError.mk "Network Error"))).client
        = ⟨none⟩ :=
  ⟨rfl, by decide, rfl⟩

/-- C2 (amended): on any outcome other than a resolved 200 response,
`setToken` fails and leaves the stored token unchanged; when the outcome is
a resolved non-200 response the failure is the AuthenticationError
`Error('Invalid token')`, and when the outcome is a rejection the failure is
that rejection's own error. -/
theorem setToken_failure (client : CausaDB) (s : String) (out : ReqOutcome Unit)
    (h : out ≠ .returns 200 ()) :
    (∀ status body, out = .returns status body →
        (client.setToken s out).result = .error authenticationError)
  ∧ (∀ e, out = .throws e → (client.setToken s out).result = .error e)
  ∧ (client.setToken s out).client = client := by
  cases out with
  | throws e =>
      refine ⟨?_, ?_, rfl⟩
      · intro status body heq
        cases heq
      · intro e' heq
        cases heq
        rfl
  | returns status body =>
      have hst : status ≠ 200 := by
        intro hc
        cases body
        exact h (by rw [hc])
      refine ⟨?_, ?_, ?_⟩
      · intro status' body' _
        simp [CausaDB.setToken, hst, authenticationError]
      · intro e heq
        cases heq
      · simp [CausaDB.setToken, hst]

/-- Witness for `setToken_failure` at the concrete outcome of a resolved
404 response. -/
theorem setToken_failure_witness :
    ReqOutcome.returns 404 () ≠ ReqOutcome.returns 200 ()
  ∧ (CausaDB.setToken ⟨none⟩ "s" (.returns 404 ())).result
        = .error authenticationError
  ∧ (CausaDB.setToken ⟨none⟩ "s" (.returns 404 ())).client = ⟨none⟩ :=
  ⟨by decide,
   (setToken_failure ⟨none⟩ "s" (.returns 404 ()) (by decide)).1 404 () rfl,
   (setToken_failure ⟨none⟩ "s" (.returns 404 ()) (by decide)).2.2⟩

/-- C3: when the account-verification request resolves with status 200,
`setToken s` stores `s` as the client's token and returns `true`
(`causadb.ts` lines 41-43). -/
theorem setToken_success (client : CausaDB) (s : String) :
    (client.setToken s (.returns 200 ())).result = .ok true
  ∧ (client.setToken s (.returns 200 ())).client.tokenSecret = some s :=
  ⟨rfl, rfl⟩

/-- C4: whenever the model-lookup request made by `getModel` rejects — for
any error whatsoever, including a not-found response rejected by the
transport — `getModel` fails with the ServerRequestError and returns no
handle (`causadb.ts` lines 94-99). -/
theorem getModel_failure (client : CausaDB) (m : String) (e : JsError)
    (createOut : ReqOutcome Unit) :
    (client.getModel m (.throws e) createOut).result = .error serverRequestError
  ∧ ∀ mdl, (client.getModel m (.throws e) createOut).result ≠ .ok mdl := by
  refine ⟨rfl, fun mdl hc => ?_⟩
  simp [CausaDB.getModel] at hc

/-- C5: when the model-listing request resolves and every create call made
by `Model.create` resolves, `listModels` returns exactly one handle per name
the service returned, named identically and in the service's order
(`causadb.ts` lines 116-117). -/
theorem listModels_maps_names (client : CausaDB) (status : Nat)
    (body : ModelsBody) (createOutcomes : String → ReqOutcome Unit)
    (h : ∀ n ∈ body.models.map NameSpec.name,
        (createOutcomes n).resolved = true) :
    (client.listModels (.returns status body) createOutcomes).result
      = .ok (body.models.map (fun ms => Model.mk ms.name client)) := by
  simp [CausaDB.listModels,
        createAll_ok client createOutcomes (body.models.map NameSpec.name) h]

/-- Witness for `listModels_maps_names` at the listing `["a","b"]` with all
create requests resolving. -/
theorem listModels_maps_names_witness :
    (CausaDB.listModels ⟨some "t"⟩ (.returns 200 ⟨[⟨"a"⟩, ⟨"b"⟩]⟩)
        (fun _ => .returns 200 ())).result
      = .ok [Model.mk "a" ⟨some "t"⟩, Model.mk "b" ⟨some "t"⟩] :=
  listModels_maps_names ⟨some "t"⟩ 200 ⟨[⟨"a"⟩, ⟨"b"⟩]⟩
    (fun _ => .returns 200 ()) (fun _ _ => rfl)

/-- C6: when the data-listing request resolves and the returned listing
contains `d`, `getData d` returns a `Data` handle named `d` referencing the
client, and the single listing request is the only request `getData`
issues (`causadb.ts` lines 138-141). -/
theorem getData_found (client : CausaDB) (d : String) (status : Nat)
    (body : DataBody) (h : d ∈ body.data.map NameSpec.name) :
    (client.getData d (.returns status body)).result = .ok (Data.mk d client)
  ∧ (client.getData d (.returns status body)).requests
      = [Request.dataList client.tokenSecret] := by
  constructor
  · simp [CausaDB.getData, h]
  · simp [CausaDB.getData, h]

/-- Witness for `getData_found` at the listing `["x"]` and name `"x"`. -/
theorem getData_found_witness :
    (CausaDB.getData ⟨some "t"⟩ "x" (.returns 200 ⟨[⟨"x"⟩]⟩)).result
        = .ok (Data.mk "x" ⟨some "t"⟩)
  ∧ (CausaDB.getData ⟨some "t"⟩ "x" (.returns 200 ⟨[⟨"x"⟩]⟩)).requests
        = [Request.dataList (some "t")] :=
  getData_found ⟨some "t"⟩ "x" 200 ⟨[⟨"x"⟩]⟩ (by decide)

/-- C7: `addData d` is purely local: it always succeeds with a `Data` handle
named `d` referencing the client, issues no request, and leaves the client
unchanged (`causadb.ts` lines 76-78). -/
theorem addData_local (client : CausaDB) (d : String) :
    (client.addData d).result = .ok (Data.mk d client)
  ∧ (client.addData d).requests = []
  ∧ (client.addData d).client = client :=
  ⟨rfl, rfl, rfl⟩

/-- C8: the token field is written only by a successful `setToken`: every
other operation leaves `tokenSecret` unchanged under every outcome, and
`setToken` itself either leaves the whole client state unchanged or
succeeded (returned `true`). -/
theorem token_frame (client : CausaDB) (name s : String)
    (outU createOut : ReqOutcome Unit) (outM : ReqOutcome ModelsBody)
    (outD outD2 : ReqOutcome DataBody)
    (createOutcomes : String → ReqOutcome Unit) :
    (client.createModel name createOut).client.tokenSecret = client.tokenSecret
  ∧ (client.addData name).client.tokenSecret = client.tokenSecret
  ∧ (client.getModel name outU createOut).client.tokenSecret
      = client.tokenSecret
  ∧ (client.listModels outM createOutcomes).client.tokenSecret
      = client.tokenSecret
  ∧ (client.getData name outD).client.tokenSecret = client.tokenSecret
  ∧ (client.listData outD2).client.tokenSecret = client.tokenSecret
  ∧ ((client.setToken s outU).client = client
      ∨ (client.setToken s outU).result = .ok true) := by
  refine ⟨rfl, rfl, ?_, ?_, ?_, ?_, ?_⟩
  · cases outU <;> rfl
  · cases outM <;> rfl
  · rfl
  · cases outD2 <;> rfl
  · cases outU with
    | throws e => exact Or.inl rfl
    | returns status body =>
        by_cases hst : status = 200
        · subst hst; exact Or.inr rfl
        · exact Or.inl (by simp [CausaDB.setToken, hst])

/-- C9: a successful `setToken s2` after a successful `setToken s1`
overwrites the stored token: afterwards `tokenSecret` is `s2`
(`causadb.ts` line 42 assigns unconditionally on a 200 response). -/
theorem setToken_overwrites (client : CausaDB) (s1 s2 : String) :
    (((client.setToken s1 (.returns 200 ())).client).setToken s2
        (.returns 200 ())).client.tokenSecret = some s2 :=
  rfl

/-- C10: on a rejected data-listing request, `listData` fails with
`Error('CausaDB client failed to connect to server')`
(`causadb.ts` line 167), a message different from the uniform
`Error('CausaDB server request failed')` thrown by `getModel`, `listModels`
and `getData` on a rejected request. -/
theorem listData_error_message (client : CausaDB) (d : String) (e : JsError)
    (createOut : ReqOutcome Unit)
    (createOutcomes : String → ReqOutcome Unit) :
    (client.listData (.throws e)).result = .error clientConnectError
  ∧ clientConnectError ≠ serverRequestError
  ∧ (client.getModel d (.throws e) createOut).result
      = .error serverRequestError
  ∧ (client.listModels (.throws e) createOutcomes).result
      = .error serverRequestError
  ∧ (client.getData d (.throws e)).result = .error serverRequestError :=
  ⟨rfl, by decide, rfl, rfl, rfl⟩

/-- Witness for `getModel_failure` at a concrete rejected lookup. -/
theorem getModel_failure_witness :
    (CausaDB.getModel ⟨some "t"⟩ "m" (.throws (JsError.mk "boom"))
        (.returns 200 ())).result = .error serverRequestError :=
  (getModel_failure ⟨some "t"⟩ "m" (JsError.mk "boom") (.returns 200 ())).1

/-- Witness for `listData_error_message` at a concrete rejected listing. -/
theorem listData_error_message_witness :
    (CausaDB.listData ⟨some "t"⟩ (.throws (JsError.mk "boom"))).result
        = .error clientConnectError
  ∧ clientConnectError ≠ serverRequestError :=
  ⟨(listData_error_message ⟨some "t"⟩ "d" (JsError.mk "boom")
      (.returns 200 ()) (fun _ => .returns 200 ())).1,
   (listData_error_message ⟨some "t"⟩ "d" (JsError.mk "boom")
      (.returns 200 ()) (fun _ => .returns 200 ())).2.1⟩
